import Mathlib

/-!
# Verification of the pycog COG reader/writer core

Shallow embedding of the pycog source (src/pycog/{types,tags,geokeys,reader,
writer,codecs}.py) in Lean 4, together with theorems settling the claims about
the natural-language specification.

Modelling conventions:
* Byte strings are `List Nat` with every element < 256 where it matters; Python
  slicing `b[i:j]` is `pySlice` (clamping, never failing).
* Python exceptions are the `PyErr` inductive; fallible code returns
  `Except PyErr _`.
* Python ints are arbitrary-precision naturals here (all values in the code are
  non-negative).  Python floats are carried as their IEEE-754 bit patterns in
  `PyVal.f32`/`PyVal.f64`; no float arithmetic is performed by the code paths
  under study.
-/

namespace PyCog

/-- Endianness of the TIFF file (types.py:7-11). -/
inductive Endian
  | big
  | little
deriving DecidableEq, Repr

/-- Python exceptions raised by the modelled code paths. -/
inductive PyErr
  | keyError (k : String)
  | attributeError (a : String)
  | typeError (m : String)
  | indexError
  | assertionError
  | nameError (n : String)
  | valueError (m : String)
  | zeroDivisionError
  | overflowError
  | structError
  | notImplementedError
  | nonTermination
deriving DecidableEq, Repr

/-- Python slice `b[i:j]` for `i ≤ j` (clamps at the end of the list). -/
def pySlice (b : List Nat) (i j : Nat) : List Nat :=
  (b.drop i).take (j - i)

/-- Models `int.from_bytes(bs, endian)`: little-endian folds from the least significant
first byte, big-endian from the most significant first byte. -/
def bytesToNat (e : Endian) (bs : List Nat) : Nat :=
  match e with
  | .little => bs.foldr (fun byte acc => byte + 256 * acc) 0
  | .big => bs.foldl (fun acc byte => 256 * acc + byte) 0

/-- Little-endian byte expansion of `n` over `len` bytes. -/
def leBytes : Nat → Nat → List Nat
  | 0, _ => []
  | len + 1, n => n % 256 :: leBytes len (n / 256)

/-- Models `n.to_bytes(len, endian)` (the caller checks the overflow condition). -/
def natToBytes (e : Endian) (len n : Nat) : List Nat :=
  match e with
  | .little => leBytes len n
  | .big => (leBytes len n).reverse

/-- TIFF header (types.py:21-36).  The version is kept as a plain natural;
`read_header` only accepts 42 or 43 (the `TiffVersion` enum members). -/
structure Header where
  endian : Endian
  version : Nat
  first_ifd_offset : Nat
deriving DecidableEq, Repr

/-- Models `_ENDIAN_BYTES` lookup (reader.py:12-16): `MM` is big, `II` is little;
anything else raises `KeyError`. -/
def read_endian (bs : List Nat) : Except PyErr Endian :=
  if bs = [0x4D, 0x4D] then .ok .big
  else if bs = [0x49, 0x49] then .ok .little
  else .error (.keyError "endian")

/-- Models `read_header` (reader.py:19-25).  `TiffVersion.from_bytes` rejects values
other than 42 and 43 with a `ValueError`. -/
def read_header (b : List Nat) : Except PyErr Header :=
  match read_endian (pySlice b 0 2) with
  | .error e => .error e
  | .ok endian =>
    let version := bytesToNat endian (pySlice b 2 4)
    if version = 42 ∨ version = 43 then
      .ok ⟨endian, version, bytesToNat endian (pySlice b 4 8)⟩
    else .error (.valueError "not a valid TiffVersion")

/-- Models `_ENDIAN_BYTES_REVERSE` (writer.py:8-12). -/
def write_endian (e : Endian) : List Nat :=
  match e with
  | .big => [0x4D, 0x4D]
  | .little => [0x49, 0x49]

/-- Models `write_header` (writer.py:15-20).  `int.to_bytes` raises `OverflowError`
when the value does not fit the requested width. -/
def write_header (h : Header) : Except PyErr (List Nat) :=
  if h.version < 2 ^ 16 ∧ h.first_ifd_offset < 2 ^ 32 then
    .ok (write_endian h.endian
      ++ natToBytes h.endian 2 h.version
      ++ natToBytes h.endian 4 h.first_ifd_offset)
  else .error .overflowError

theorem bytesToNat_le4 (e : Endian) (k : Nat) (hk : k < 2 ^ 32) :
    bytesToNat e (natToBytes e 4 k) = k := by
  cases e <;>
    simp only [bytesToNat, natToBytes, leBytes, List.reverse_cons, List.reverse_nil,
      List.nil_append, List.cons_append, List.foldr, List.foldl] <;>
    omega

theorem bytesToNat_le2_42 (e : Endian) :
    bytesToNat e (natToBytes e 2 42) = 42 := by
  cases e <;> rfl

/-- C3: header round-trip.  For every endianness `e` and every 32-bit offset
`k`, `read_header (write_header {e, 42, k})` returns `{e, 42, k}`; the literal
bytes `49 49 2A 00 08 00 00 00` parse to `{little, 42, 8}` and `write_header`
of that header reproduces those 8 bytes exactly. -/
theorem header_roundtrip_and_literal :
    (∀ (e : Endian) (k : Nat), k < 2 ^ 32 →
      (write_header ⟨e, 42, k⟩).bind read_header = .ok ⟨e, 42, k⟩)
    ∧ read_header [0x49, 0x49, 0x2A, 0x00, 0x08, 0x00, 0x00, 0x00]
        = .ok ⟨.little, 42, 8⟩
    ∧ write_header ⟨.little, 42, 8⟩
        = .ok [0x49, 0x49, 0x2A, 0x00, 0x08, 0x00, 0x00, 0x00] := by
  refine ⟨?_, by rfl, by rfl⟩
  intro e k hk
  have hb := bytesToNat_le4 e k hk
  cases e <;>
  · simp only [write_header, natToBytes, leBytes] at *
    simp only [show (42 : Nat) < 2 ^ 16 ∧ k < 2 ^ 32 from ⟨by omega, hk⟩, if_pos,
      and_self, ite_true]
    simp only [Except.bind, read_header, read_endian, write_endian]
    simp only [pySlice, List.reverse_cons, List.reverse_nil, List.nil_append,
      List.cons_append, List.append_nil, List.drop, List.take, Nat.sub_zero]
    norm_num [bytesToNat] at *
    omega

/-- Witness for C3 at `e = little`, `k = 8`. -/
theorem header_roundtrip_witness :
    (write_header ⟨.little, 42, 8⟩).bind read_header = .ok ⟨.little, 42, 8⟩ :=
  header_roundtrip_and_literal.1 .little 8 (by norm_num)

/-! ## Tag data types (types.py) -/

/-- Models `struct` format characters used by `TAG_TYPES` (types.py:73-82). -/
inductive Fmt
  | B
  | c
  | H
  | L
  | f
  | d
  | Q
deriving DecidableEq, Repr

/-- Models `TagType` (types.py:57-70). -/
structure TagType where
  format : Fmt
  length : Nat
  value : Nat
deriving DecidableEq, Repr

/-- Models `TAG_TYPES` (types.py:73-82), transcribed entry by entry. -/
def TAG_TYPES (code : Nat) : Option TagType :=
  if code = 1 then some ⟨.B, 1, 1⟩
  else if code = 2 then some ⟨.c, 1, 2⟩
  else if code = 3 then some ⟨.H, 2, 3⟩
  else if code = 4 then some ⟨.L, 4, 4⟩
  else if code = 5 then some ⟨.f, 4, 5⟩
  else if code = 7 then some ⟨.B, 1, 7⟩
  else if code = 12 then some ⟨.d, 8, 12⟩
  else if code = 16 then some ⟨.Q, 8, 16⟩
  else none

/-- A decoded Python value inside the `value` tuple of a tag.  Integers cover the
`B`/`H`/`L`/`Q` formats, `byteChar` the one-byte `bytes` objects produced by
format `c`, and floats are carried as their IEEE-754 bit patterns (`f32` for
format `f`, `f64` for format `d` and for float literals in the source). -/
inductive PyVal
  | int (n : Nat)
  | byteChar (n : Nat)
  | f32 (bits : Nat)
  | f64 (bits : Nat)
deriving DecidableEq, Repr

/-- Byte width of one value of a `struct` format character. -/
def fmtLen : Fmt → Nat
  | .B => 1
  | .c => 1
  | .H => 2
  | .L => 4
  | .f => 4
  | .d => 8
  | .Q => 8

/-- Split the first `count` chunks of `sz` bytes off a byte list. -/
def takeChunks (sz : Nat) : Nat → List Nat → List (List Nat)
  | 0, _ => []
  | n + 1, l => l.take sz :: takeChunks sz n (l.drop sz)

/-- Decode one `sz`-byte chunk according to the format character. -/
def unpackChunk (e : Endian) (t : Fmt) (chunk : List Nat) : PyVal :=
  match t with
  | .B => .int (chunk.headD 0)
  | .c => .byteChar (chunk.headD 0)
  | .H => .int (bytesToNat e chunk)
  | .L => .int (bytesToNat e chunk)
  | .Q => .int (bytesToNat e chunk)
  | .f => .f32 (bytesToNat e chunk)
  | .d => .f64 (bytesToNat e chunk)

/-- Models `struct.unpack(f"{endian}{count}{fmt}", data)` (reader.py:80-82): fails
with `struct.error` (modelled as `none`) unless `data` has exactly
`count * fmtLen` bytes, then decodes `count` values. -/
def unpackValues (e : Endian) (t : Fmt) (count : Nat) (data : List Nat) :
    Option (List PyVal) :=
  if data.length = count * fmtLen t then
    some ((takeChunks (fmtLen t) count data).map (unpackChunk e t))
  else none

/-- Encode one value for `struct.pack`.  Only the value shapes produced by the
corresponding `unpack` (and the integer formats) are modelled; `struct.pack`
raises for mismatched argument types, modelled as `none`. -/
def packOne (e : Endian) (t : Fmt) (v : PyVal) : Option (List Nat) :=
  match t, v with
  | .B, .int n => if n < 256 then some [n] else none
  | .c, .byteChar n => some [n]
  | .H, .int n => if n < 2 ^ 16 then some (natToBytes e 2 n) else none
  | .L, .int n => if n < 2 ^ 32 then some (natToBytes e 4 n) else none
  | .Q, .int n => if n < 2 ^ 64 then some (natToBytes e 8 n) else none
  | .f, .f32 bits => some (natToBytes e 4 bits)
  | .d, .f64 bits => some (natToBytes e 8 bits)
  | _, _ => none

def packList (e : Endian) (t : Fmt) : List PyVal → Option (List Nat)
  | [] => some []
  | v :: rest =>
    match packOne e t v, packList e t rest with
    | some bs, some tail => some (bs ++ tail)
    | _, _ => none

/-- Models `struct.pack(f"{endian}{count}{fmt}", *values)` (writer.py:100-101,
codecs.py:86-89). -/
def packValues (e : Endian) (t : Fmt) (count : Nat) (vs : List PyVal) :
    Option (List Nat) :=
  if vs.length = count then packList e t vs else none

/-- C6: the type-table entry for field-type code 5 (RATIONAL).  The source
(types.py:78) gives it `format="f"`, `length=4` — a single 32-bit float per
value, not the 8 bytes / two 32-bit components the claim states; the second
conjunct shows that decoding one code-5 value consumes exactly 4 bytes and
yields one float (here the bit pattern of 1.0f). -/
theorem tagtypes_rational_entry :
    TAG_TYPES 5 = some ⟨Fmt.f, 4, 5⟩
    ∧ unpackValues .little Fmt.f 1 [0x00, 0x00, 0x80, 0x3F]
        = some [PyVal.f32 0x3F800000] := by
  exact ⟨rfl, rfl⟩

/-! ## GeoKeys (geokeys.py, tags.py:209-257) -/

/-- Models `GeoKey` (geokeys.py:8-14).  `tag_location`, `count` and `value_offset`
come straight out of the directory tuple. -/
structure GeoKey where
  id : Nat
  tag_location : PyVal
  count : PyVal
  value_offset : PyVal
  parsed_value : Option PyVal
deriving DecidableEq, Repr

/-- The geokey ids registered by `GeoKeyRegistry.__post_init__`
(geokeys.py:177-199). -/
def geokey_registry_ids : List Nat :=
  [1024, 1025, 1026, 2048, 2049, 2050, 2051, 2052, 2053, 2054,
   2055, 2056, 2057, 2058, 2059, 2060, 3072, 3076]

/-- Models `geokey_registry.get(key_id)` (geokeys.py:204-205), returning the key id of
the registered class.  Python dict lookup would also accept a float equal to an
integer key; the directories under study hold ints, so only ints are looked
up. -/
def geokey_registry_get (kid : PyVal) : Option Nat :=
  match kid with
  | .int k => if geokey_registry_ids.contains k then some k else none
  | _ => none

/-- Python `v == n` between a directory value and a natural.  The values of
interest are ints (the directory is SHORT-valued). -/
def pyEqNat (v : PyVal) (n : Nat) : Bool :=
  match v with
  | .int m => m = n
  | _ => false

/-- Membership test of an enum-valued geokey: `Enum(value_offset)` raises
`ValueError` outside the member range (each enum in geokeys.py is a contiguous
code block). -/
def enumCheck (v : PyVal) (lo hi : Nat) : Except PyErr (Option PyVal) :=
  match v with
  | .int n => if lo ≤ n ∧ n ≤ hi then .ok (some v)
              else .error (.valueError "is not a valid enum member")
  | _ => .error (.valueError "is not a valid enum member")

/-- The per-class `__post_init__` bodies of geokeys.py: 1024 `GTModelType`
(enum 1-3), 1025 `GTRasterType` (enum 1-2), 1026 `GTCitation` and 2049
`GeographicCitation` (both slice `self.value_offset[:-1]`, a `TypeError` on the
int that a location-0 key carries), 2054 `GeographicAngularUnits` (9101-9108),
3076 `ProjectedLinearUnits` (9001-9015), 3072 `ProjectedType` (kept as is);
every other registered geokey has no `__post_init__`. -/
def geokeyPostInit (kid : Nat) (voff : PyVal) : Except PyErr (Option PyVal) :=
  if kid = 1026 ∨ kid = 2049 then
    .error (.typeError "int object is not subscriptable")
  else if kid = 1024 then enumCheck voff 1 3
  else if kid = 1025 then enumCheck voff 1 2
  else if kid = 2054 then enumCheck voff 9101 9108
  else if kid = 3076 then enumCheck voff 9001 9015
  else if kid = 3072 then .ok (some voff)
  else .ok none

/-- The slicing `[self.value[i:i+4] for i in range(0, len(self.value), 4)]`
(tags.py:221): blocks of four with a short trailing block kept. -/
def chunk4 : List PyVal → List (List PyVal)
  | [] => []
  | a :: b :: c :: d :: rest => [a, b, c, d] :: chunk4 rest
  | rest => [rest]

/-- The geokey loop of `GeoKeyDirectory.__post_init__` (tags.py:239-253): each
block unpacks to exactly four values (`ValueError` otherwise); a key with
`tag_location != 0` is skipped with a "Skipping geokey" print (the TODO at
tags.py:244); for `tag_location == 0` the class looked up in the registry is
called — `None` for an unregistered id, a `TypeError`. -/
def processGeoKeys : List (List PyVal) → Except PyErr (List GeoKey)
  | [] => .ok []
  | chunk :: rest =>
    match chunk with
    | [kid, loc, cnt, voff] =>
      let cls := geokey_registry_get kid
      if pyEqNat loc 0 then
        match cls with
        | none => .error (.typeError "NoneType object is not callable")
        | some k =>
          match geokeyPostInit k voff with
          | .error er => .error er
          | .ok parsed =>
            match processGeoKeys rest with
            | .error er => .error er
            | .ok gs => .ok (⟨k, loc, cnt, voff, parsed⟩ :: gs)
      else
        processGeoKeys rest
    | _ => .error (.valueError "not enough values to unpack")

/-- Models `GeoKeyDirectory.__post_init__` (tags.py:216-257): chunk the decoded tag
value into 4-tuples, pop the directory header (an `IndexError` on an empty
value, a `ValueError` if the first block is short), `assert number_of_keys`
matches, then process the keys. -/
def geokey_directory_post_init (vals : List PyVal) : Except PyErr (List GeoKey) :=
  match chunk4 vals with
  | [] => .error .indexError
  | hdr :: rest =>
    match hdr with
    | [_, _, _, nk] =>
      if pyEqNat nk rest.length then processGeoKeys rest
      else .error .assertionError
    | _ => .error (.valueError "not enough values to unpack")

/-- C8: a GeoKeyDirectory whose single key has an id (9999) absent from the
geokey registry and `tag_location = 0`.  `geokey_registry.get` returns `None`
and `__post_init__` calls it as a constructor (tags.py:247-253), so parsing
raises `TypeError` instead of skipping the key with a warning. -/
theorem unknown_geokey_raises_type_error :
    geokey_directory_post_init
      [.int 1, .int 1, .int 0, .int 1, .int 9999, .int 0, .int 1, .int 1]
      = .error (.typeError "NoneType object is not callable") := by
  rfl

/-! ## Tags and the tag registry (types.py:85-115, tags.py) -/

/-- Models `Tag` (types.py:85-115): class-level id and name, the field type, the value
count, the byte size, and the decoded value tuple. -/
structure Tag where
  id : Nat
  name : String
  type : TagType
  count : Nat
  size : Nat
  value : List PyVal
deriving DecidableEq, Repr

/-- A tag class in the registry: its class-level `id` and `name` (the classes
in tags.py differ only in these). -/
structure TagClass where
  id : Nat
  name : String
deriving DecidableEq, Repr

/-- Models `TagRegistry.get` (tags.py:288-294): the dict maps `t.id` to `t`. -/
def tag_registry_get (reg : List TagClass) (code : Nat) : Option TagClass :=
  reg.find? (fun t => t.id = code)

/-- The classes added by `TagRegistry.register_geotiff` (tags.py:318-324). -/
def geotiff_tag_classes : List TagClass :=
  [⟨33550, "ModelPixelScale"⟩, ⟨33922, "ModelTiePoint"⟩,
   ⟨34735, "GeoKeyDirectory"⟩, ⟨34737, "GeoAsciiParams"⟩]

/-- The classes added by `TagRegistry.register_baseline` (tags.py:296-316). -/
def baseline_tag_classes : List TagClass :=
  [⟨254, "NewSubfileType"⟩, ⟨256, "ImageWidth"⟩, ⟨257, "ImageHeight"⟩,
   ⟨258, "BitsPerSample"⟩, ⟨259, "Compression"⟩,
   ⟨262, "PhotometricInterpretation"⟩, ⟨277, "SamplesPerPixel"⟩,
   ⟨282, "XResolution"⟩, ⟨283, "YResolution"⟩, ⟨284, "PlanarConfiguration"⟩,
   ⟨296, "ResolutionUnit"⟩, ⟨322, "TileWidth"⟩, ⟨323, "TileHeight"⟩,
   ⟨324, "TileOffsets"⟩, ⟨325, "TileByteCounts"⟩, ⟨338, "ExtraSamples"⟩,
   ⟨339, "SampleFormat"⟩, ⟨347, "JPEGTables"⟩]

/-- Association-list lookup with Python `dict` semantics (first match; keys are
unique by construction). -/
def lookupAssoc : List (String × Tag) → String → Option Tag
  | [], _ => none
  | (k', v) :: rest, k => if k' = k then some v else lookupAssoc rest k

/-- Models `d[k] = v` on a Python dict: replace in place if the key exists, append
otherwise. -/
def assocSet : List (String × Tag) → String → Tag → List (String × Tag)
  | [], k, v => [(k, v)]
  | (k', v') :: rest, k, v =>
    if k' = k then (k, v) :: rest else (k', v') :: assocSet rest k v

/-- Models `tag_cls(count=…, type=…, size=…, value=…)` (reader.py:83).  Constructing a
`GeoKeyDirectory` runs its `__post_init__` (tags.py:216-257), whose failures
propagate; every other tag class constructs without side conditions. -/
def mkTag (cls : TagClass) (tt : TagType) (count size : Nat) (vals : List PyVal) :
    Except PyErr Tag :=
  if cls.name = "GeoKeyDirectory" then
    match geokey_directory_post_init vals with
    | .error er => .error er
    | .ok _ => .ok ⟨cls.id, cls.name, tt, count, size, vals⟩
  else .ok ⟨cls.id, cls.name, tt, count, size, vals⟩

/-- The body of one iteration of the tag loop (reader.py:58-83) once the tag
class is known: read the field type (a `KeyError` on an unregistered type
code), the count, compute `size = count * type.length`, take the value bytes
from the entry itself when `size ≤ 4` and from the dereferenced `u32` offset
otherwise, then decode them. -/
def parse_tag_entry (b : List Nat) (e : Endian) (cls : TagClass) (s : Nat) :
    Except PyErr Tag :=
  match TAG_TYPES (bytesToNat e (pySlice b (s + 2) (s + 4))) with
  | none => .error (.keyError "TAG_TYPES")
  | some tt =>
    let count := bytesToNat e (pySlice b (s + 4) (s + 8))
    let size := count * tt.length
    let raw :=
      if size ≤ 4 then pySlice b (s + 8) (s + 8 + size)
      else
        let off := bytesToNat e (pySlice b (s + 8) (s + 12))
        pySlice b off (off + size)
    match unpackValues e tt.format count raw with
    | none => .error .structError
    | some vals => mkTag cls tt count size vals

/-- The tag loop `for idx in range(tag_count)` (reader.py:46-84), with `off`
the start offset of the IFD: each 12-byte entry starts at `off + 2 + 12*idx`; an
entry whose tag code is not in the registry is skipped and its code recorded
as a warning (the `print` at reader.py:55); a parsed tag is stored under its
name. -/
def parse_tags (b : List Nat) (e : Endian) (reg : List TagClass) (off : Nat) :
    Nat → Nat → List (String × Tag) → List Nat →
    Except PyErr (List (String × Tag) × List Nat)
  | 0, _, tags, warnings => .ok (tags, warnings)
  | n + 1, idx, tags, warnings =>
    let s := off + 2 + 12 * idx
    let code := bytesToNat e (pySlice b s (s + 2))
    match tag_registry_get reg code with
    | none => parse_tags b e reg off n (idx + 1) tags (warnings ++ [code])
    | some cls =>
      match parse_tag_entry b e cls s with
      | .error er => .error er
      | .ok t => parse_tags b e reg off n (idx + 1) (assocSet tags cls.name t) warnings

/-- An `IFD` (types.py:39-54). -/
structure IFD where
  tag_count : Nat
  next_ifd_offset : Nat
  tags : List (String × Tag)
deriving DecidableEq, Repr

/-- A `Cog` (types.py:118-131); `file_bytes` is the content behind the
`file_handle`. -/
structure Cog where
  header : Header
  ifds : List IFD
  file_bytes : List Nat
deriving DecidableEq, Repr

/-- One turn of the IFD `while` loop (reader.py:38-101): read the tag count,
run the tag loop, then the GeoKeyDirectory hook (reader.py:86-92) — the tag
class defines no `parse_from_tags` method, so finding the tag raises
`AttributeError`; finally read the next-IFD offset from the 4 bytes after the
last entry (`tag_start` is the loop variable, so an IFD with zero tags leaves
it unbound: `NameError`). -/
def parse_ifd (b : List Nat) (e : Endian) (reg : List TagClass) (off : Nat) :
    Except PyErr IFD :=
  let tagCount := bytesToNat e (pySlice b off (off + 2))
  match parse_tags b e reg off tagCount 0 [] [] with
  | .error er => .error er
  | .ok (tags, _warnings) =>
    match lookupAssoc tags "GeoKeyDirectory" with
    | some _ => .error (.attributeError "parse_from_tags")
    | none =>
      if tagCount = 0 then .error (.nameError "tag_start")
      else
        let lastStart := off + 2 + 12 * (tagCount - 1)
        .ok ⟨tagCount, bytesToNat e (pySlice b (lastStart + 12) (lastStart + 16)), tags⟩

/-- The `while next_ifd_offset != 0` loop (reader.py:38).  Python would loop
forever on a cyclic offset chain; the fuel bounds the number of iterations and
its exhaustion stands for that non-termination. -/
def ifd_loop (b : List Nat) (e : Endian) (reg : List TagClass) :
    Nat → Nat → List IFD → Except PyErr (List IFD)
  | 0, _, _ => .error .nonTermination
  | fuel + 1, off, acc =>
    if off = 0 then .ok acc
    else
      match parse_ifd b e reg off with
      | .error er => .error er
      | .ok ifd => ifd_loop b e reg fuel ifd.next_ifd_offset (acc ++ [ifd])

/-- Models `open_cog` (reader.py:28-103): read at most `header_size` bytes, parse the
header, then follow the IFD chain. -/
def open_cog (file : List Nat) (reg : List TagClass) (fuel : Nat)
    (header_size : Nat) : Except PyErr Cog :=
  let b := file.take header_size
  match read_header b with
  | .error er => .error er
  | .ok header =>
    match ifd_loop b header.endian reg fuel header.first_ifd_offset [] with
    | .error er => .error er
    | .ok ifds => .ok ⟨header, ifds, file⟩

theorem mkTag_ok (cls : TagClass) (tt : TagType) (count size : Nat)
    (vals : List PyVal) (t : Tag) (h : mkTag cls tt count size vals = .ok t) :
    t = ⟨cls.id, cls.name, tt, count, size, vals⟩ := by
  unfold mkTag at h
  split at h
  · split at h
    · exact absurd h (by simp)
    · injection h with h; exact h.symm
  · injection h with h; exact h.symm

/-- C4: tag inline/offset boundary.  Whenever the reader parses a tag entry at
offset `s` into a tag `t`, the decoded value comes from the first `t.size`
bytes of the final 4 bytes of the entry when `t.size ≤ 4`, and otherwise from the
`t.size` bytes found at the `u32` file offset stored in those final 4 bytes. -/
theorem tag_value_inline_or_offset (b : List Nat) (e : Endian) (cls : TagClass)
    (s : Nat) (t : Tag) (h : parse_tag_entry b e cls s = .ok t) :
    (t.size ≤ 4 →
      unpackValues e t.type.format t.count (pySlice b (s + 8) (s + 8 + t.size))
        = some t.value)
    ∧ (4 < t.size →
      unpackValues e t.type.format t.count
        (pySlice b (bytesToNat e (pySlice b (s + 8) (s + 12)))
          (bytesToNat e (pySlice b (s + 8) (s + 12)) + t.size))
        = some t.value) := by
  unfold parse_tag_entry at h
  split at h
  · exact absurd h (by simp)
  · rename_i tt htt
    dsimp only at h
    split at h
    · exact absurd h (by simp)
    · rename_i vals hunpack
      have ht := mkTag_ok _ _ _ _ _ _ h
      subst ht
      dsimp only
      split at hunpack
      · rename_i hle
        refine ⟨fun _ => hunpack, fun hgt => absurd hle (by omega)⟩
      · rename_i hgt
        refine ⟨fun hle => absurd hle (by omega), fun _ => hunpack⟩

/-- Concrete entry bytes for the C4 witness: field type 3 (SHORT), count 1,
inline value 100. -/
def c4_entry_bytes : List Nat :=
  [0, 1, 3, 0, 1, 0, 0, 0, 100, 0, 0, 0]

/-- Witness for C4: the inline branch at a concrete 12-byte entry. -/
theorem tag_value_inline_or_offset_witness :
    unpackValues .little Fmt.H 1 (pySlice c4_entry_bytes 8 10)
      = some [PyVal.int 100] := by
  have h := tag_value_inline_or_offset c4_entry_bytes .little ⟨256, "ImageWidth"⟩ 0
    ⟨256, "ImageWidth", ⟨.H, 2, 3⟩, 1, 2, [PyVal.int 100]⟩ (by rfl)
  exact h.1 (by norm_num)

/-- C7: an entry whose tag code is absent from the registry is skipped: the
loop records the code as a warning, leaves the accumulated tags untouched, and
the result of the whole loop is exactly the result of parsing the remaining
entries — no abort. -/
theorem unknown_tag_skipped (b : List Nat) (e : Endian) (reg : List TagClass)
    (off n idx : Nat) (tags : List (String × Tag)) (warnings : List Nat)
    (h : tag_registry_get reg
      (bytesToNat e (pySlice b (off + 2 + 12 * idx) (off + 2 + 12 * idx + 2))) = none) :
    parse_tags b e reg off (n + 1) idx tags warnings
      = parse_tags b e reg off n (idx + 1) tags
          (warnings ++ [bytesToNat e (pySlice b (off + 2 + 12 * idx) (off + 2 + 12 * idx + 2))]) := by
  conv_lhs => rw [parse_tags]
  simp only [h]

/-- A one-tag IFD body (tag count 2 bytes, then the entry for code 256) for the
C7 witness. -/
def c7_ifd_bytes : List Nat :=
  [0x01, 0x00] ++ c4_entry_bytes

/-- Witness for C7: a single-entry loop over the default (empty) registry —
`tag_registry` starts empty (tags.py:327) until a caller registers classes —
skips the entry with a warning for code 256 and finishes successfully. -/
theorem unknown_tag_skipped_witness :
    parse_tags c7_ifd_bytes .little [] 0 1 0 [] [] = .ok ([], [256]) := by
  rw [show (1 : Nat) = 0 + 1 from rfl,
    unknown_tag_skipped c7_ifd_bytes .little [] 0 0 0 [] [] (by rfl)]
  rfl

/-- A minimal COG whose single IFD carries one GeoKeyDirectory tag, value
`(1, 1, 0, 0)` stored out of line at offset 26 (the C2 failing input). -/
def c2_file_bytes : List Nat :=
  [0x49, 0x49, 0x2A, 0x00, 0x08, 0x00, 0x00, 0x00,
   0x01, 0x00,
   0xAF, 0x87, 0x03, 0x00, 0x04, 0x00, 0x00, 0x00, 0x1A, 0x00, 0x00, 0x00,
   0x00, 0x00, 0x00, 0x00,
   0x01, 0x00, 0x01, 0x00, 0x00, 0x00, 0x00, 0x00]

/-- C2: opening a COG that contains a GeoKeyDirectory tag never succeeds.  The
tag itself parses (its `__post_init__` runs, skipping every geokey whose
`tag_location ≠ 0` under the TODO at tags.py:244 instead of resolving it from
the referenced tag), but `open_cog` then calls `gkd.parse_from_tags(tags)`
(reader.py:90) — a method `GeoKeyDirectory` does not define — so the open
raises `AttributeError` instead of returning a parsed COG. -/
theorem open_geokeydirectory_attribute_error :
    open_cog c2_file_bytes geotiff_tag_classes 10 65536
      = .error (.attributeError "parse_from_tags") := by
  rfl

/-! ## Codecs (codecs.py) -/

/-- The numeric dtypes of the sample-format table. -/
inductive Dtype
  | u8
  | u16
  | u32
  | i8
  | i16
  | i32
  | f32
  | f64
deriving DecidableEq, Repr

/-- Modelled from the spec: `SAMPLE_DTYPES` is imported by codecs.py from
`pycog.constants`, a module not under src/.  The table in the spec reads (UINT,8)→u8,
(UINT,16)→u16, (UINT,32)→u32, (INT,8)→i8, (INT,16)→i16, (INT,32)→i32,
(IEEEFP,32)→f32, (IEEEFP,64)→f64, with the TIFF `SampleFormat` codes UINT=1,
INT=2, IEEEFP=3.  A missing pair is a `KeyError`. -/
def SAMPLE_DTYPES (sf bps : PyVal) : Option Dtype :=
  match sf, bps with
  | .int 1, .int 8 => some .u8
  | .int 1, .int 16 => some .u16
  | .int 1, .int 32 => some .u32
  | .int 2, .int 8 => some .i8
  | .int 2, .int 16 => some .i16
  | .int 2, .int 32 => some .i32
  | .int 3, .int 32 => some .f32
  | .int 3, .int 64 => some .f64
  | _, _ => none

/-- The state `Jpeg.create_from_ifd` (codecs.py:72-106) stores on the codec
instance.  The `colorspace_data`/`colorspace_jpeg` arguments are commented out
at codecs.py:101-102, so both fields are `None` on every instance built from
an IFD. -/
structure JpegCodec where
  bitspersample : PyVal
  tables : Option (List Nat)
  subsampling : Option (List PyVal)
  colorspace_data : Option Nat
  colorspace_jpeg : Option Nat
deriving DecidableEq, Repr

/-- The state `Deflate.create_from_ifd` (codecs.py:162-170) stores. -/
structure DeflateCodec where
  dtype : Dtype
  width : PyVal
  height : PyVal
  samples : PyVal
deriving DecidableEq, Repr

/-- A constructed codec instance. -/
inductive Codec
  | jpeg (c : JpegCodec)
  | deflate (c : DeflateCodec)
deriving DecidableEq, Repr

/-- A codec class held by the registry. -/
inductive CodecCls
  | jpeg
  | deflate
deriving DecidableEq, Repr

/-- Models `codec_registry.get(code)` (codecs.py:215-222): the registry holds
`Codec.__subclasses__()`, i.e. `{7: Jpeg, 8: Deflate}`. -/
def codec_registry_get (comp : Nat) : Option CodecCls :=
  if comp = 7 then some .jpeg
  else if comp = 8 then some .deflate
  else none

/-- Python truthiness of a codec instance: neither codec class defines
`__bool__` or `__len__`, so every instance is truthy. -/
def pyTruthy (_c : Codec) : Bool := true

/-- Models `ifd.tags[name].value[i]` restricted to int-valued tags (`KeyError` /
`IndexError` as in Python; the arithmetic and seek/read call sites under study
require ints, so other value shapes surface as a model-level `TypeError`). -/
def tagInt (ifd : IFD) (name : String) (i : Nat) : Except PyErr Nat :=
  match lookupAssoc ifd.tags name with
  | none => .error (.keyError name)
  | some t =>
    match t.value.get? i with
    | none => .error .indexError
    | some (.int n) => .ok n
    | some _ => .error (.typeError "model restricted to int tag values")

/-- The `extra_samples.value[0] if extra_samples else None` argument of the
`jpeg_decode_colorspace` call (codecs.py:78-82): only evaluated when the
`ExtraSamples` tag is present. -/
def jpegExtraSamplesArg (ifd : IFD) : Except PyErr (Option PyVal) :=
  match lookupAssoc ifd.tags "ExtraSamples" with
  | some es =>
    match es.value.get? 0 with
    | some v => .ok (some v)
    | none => .error .indexError
  | none => .ok none

/-- The `JPEGTables` re-packing (codecs.py:84-91): the decoded SHORT/BYTE
values are packed back to raw bytes with `struct.pack`; a missing tag is the
caught `KeyError`, yielding `tables = None`. -/
def jpegTablesArg (ifd : IFD) (e : Endian) : Except PyErr (Option (List Nat)) :=
  match lookupAssoc ifd.tags "JPEGTables" with
  | some jt =>
    match packValues e jt.type.format jt.count jt.value with
    | some bs => .ok (some bs)
    | none => .error .structError
  | none => .ok none

/-- Models `Jpeg.create_from_ifd` (codecs.py:72-106), step by step: `tags.get` returns
`None` for a missing key, so `photometric.value[0]` / `planar_config.value[0]`
raise `AttributeError` when `PhotometricInterpretation` or
`PlanarConfiguration` is absent; the `ExtraSamples` argument is only evaluated
when the tag is present; `jpeg_decode_colorspace` is an external collaborator
(tifffile) modelled as total with an unused result (its outputs feed only the
commented-out constructor arguments); `JPEGTables` is re-packed with
`struct.pack`; `BitsPerSample` is a plain `KeyError` lookup. -/
def jpeg_create_from_ifd (ifd : IFD) (e : Endian) : Except PyErr Codec :=
  match lookupAssoc ifd.tags "PhotometricInterpretation" with
  | none => .error (.attributeError "value")
  | some pt =>
    match pt.value.get? 0 with
    | none => .error .indexError
    | some _ =>
      match lookupAssoc ifd.tags "PlanarConfiguration" with
      | none => .error (.attributeError "value")
      | some pc =>
        match pc.value.get? 0 with
        | none => .error .indexError
        | some _ =>
          match jpegExtraSamplesArg ifd with
          | .error er => .error er
          | .ok _extra =>
            match jpegTablesArg ifd e with
            | .error er => .error er
            | .ok tables =>
              match lookupAssoc ifd.tags "BitsPerSample" with
              | none => .error (.keyError "BitsPerSample")
              | some bt =>
                match bt.value.get? 0 with
                | none => .error .indexError
                | some bv =>
                  .ok (.jpeg ⟨bv, tables,
                    (lookupAssoc ifd.tags "ChromaSubSampling").map (fun t => t.value),
                    none, none⟩)

/-- Models `Deflate.create_from_ifd` (codecs.py:162-170): dtype from
`SAMPLE_DTYPES[(SampleFormat[0], BitsPerSample[0])]`, then TileWidth,
TileHeight, SamplesPerPixel. -/
def deflate_create_from_ifd (ifd : IFD) (_e : Endian) : Except PyErr Codec :=
  match lookupAssoc ifd.tags "SampleFormat" with
  | none => .error (.keyError "SampleFormat")
  | some sft =>
    match sft.value.get? 0 with
    | none => .error .indexError
    | some sf =>
      match lookupAssoc ifd.tags "BitsPerSample" with
      | none => .error (.keyError "BitsPerSample")
      | some bpt =>
        match bpt.value.get? 0 with
        | none => .error .indexError
        | some bps =>
          match SAMPLE_DTYPES sf bps with
          | none => .error (.keyError "SAMPLE_DTYPES")
          | some dt =>
            match lookupAssoc ifd.tags "TileWidth" with
            | none => .error (.keyError "TileWidth")
            | some wt =>
              match wt.value.get? 0 with
              | none => .error .indexError
              | some w =>
                match lookupAssoc ifd.tags "TileHeight" with
                | none => .error (.keyError "TileHeight")
                | some ht =>
                  match ht.value.get? 0 with
                  | none => .error .indexError
                  | some h =>
                    match lookupAssoc ifd.tags "SamplesPerPixel" with
                    | none => .error (.keyError "SamplesPerPixel")
                    | some st =>
                      match st.value.get? 0 with
                      | none => .error .indexError
                      | some smp => .ok (.deflate ⟨dt, w, h, smp⟩)

/-- Models `cls.create_from_ifd(ifd, endian)` dispatch. -/
def create_from_ifd (c : CodecCls) (ifd : IFD) (e : Endian) : Except PyErr Codec :=
  match c with
  | .jpeg => jpeg_create_from_ifd ifd e
  | .deflate => deflate_create_from_ifd ifd e

/-! ## read_tile (reader.py:106-131) -/

/-- Result of `read_tile`: raw bytes, or the decode of the external codec applied to
them.  The entropy decode itself is an external collaborator; the constructor
records the codec and the bytes handed to it. -/
inductive TileResult
  | raw (bs : List Nat)
  | decoded (c : Codec) (input : List Nat)
deriving DecidableEq, Repr

/-- The tile-addressing part of `read_tile` (reader.py:106-120):
`columns = ceil(ImageWidth / TileWidth)` (`ZeroDivisionError` on a zero tile
width; Python computes the ceiling by float division, identical to the natural
ceiling division used here for all realistic sizes), `idx = y*columns + x`,
then seek to `TileOffsets[idx]` and read `TileByteCounts[idx]` bytes. -/
def read_tile_raw (x y z : Nat) (cog : Cog) : Except PyErr (IFD × List Nat) :=
  match cog.ifds.get? z with
  | none => .error .indexError
  | some ifd =>
    match tagInt ifd "ImageWidth" 0 with
    | .error er => .error er
    | .ok w =>
      match tagInt ifd "TileWidth" 0 with
      | .error er => .error er
      | .ok tw =>
        if tw = 0 then .error .zeroDivisionError
        else
          match tagInt ifd "TileOffsets" (y * ((w + tw - 1) / tw) + x) with
          | .error er => .error er
          | .ok toff =>
            match tagInt ifd "TileByteCounts" (y * ((w + tw - 1) / tw) + x) with
            | .error er => .error er
            | .ok tcnt => .ok (ifd, pySlice cog.file_bytes toff (toff + tcnt))

/-- Models `read_tile` (reader.py:106-131).  With `decode` the compression code is
looked up in the codec registry: `codec_registry.get(compression)` returns
`None` for an unknown code and the chained `.create_from_ifd(...)` raises
`AttributeError` (reader.py:126) before the `if not codec` guard
(reader.py:127) can run; a constructed codec is always truthy, so the
`NotImplementedError` branch is dead. -/
def read_tile (x y z : Nat) (cog : Cog) (decode : Bool) : Except PyErr TileResult :=
  match read_tile_raw x y z cog with
  | .error er => .error er
  | .ok (ifd, content) =>
    if decode then
      match tagInt ifd "Compression" 0 with
      | .error er => .error er
      | .ok comp =>
        match codec_registry_get comp with
        | none => .error (.attributeError "create_from_ifd")
        | some ccls =>
          match create_from_ifd ccls ifd cog.header.endian with
          | .error er => .error er
          | .ok codec =>
            if pyTruthy codec then .ok (.decoded codec content)
            else .error .notImplementedError
    else .ok (.raw content)

/-- C5: tile addressing.  For a level-`z` IFD carrying int-valued ImageWidth,
TileWidth (nonzero), TileOffsets and TileByteCounts, `read_tile` with
`decode=False` returns exactly the `TileByteCounts[idx]` bytes of the file at
offset `TileOffsets[idx]`, where `idx = y * ceil(ImageWidth / TileWidth) + x`. -/
theorem read_tile_addressing (x y z w tw toff tcnt : Nat) (cog : Cog) (ifd : IFD)
    (hifd : cog.ifds.get? z = some ifd)
    (hw : tagInt ifd "ImageWidth" 0 = .ok w)
    (htw : tagInt ifd "TileWidth" 0 = .ok tw)
    (htw0 : tw ≠ 0)
    (hoff : tagInt ifd "TileOffsets" (y * ((w + tw - 1) / tw) + x) = .ok toff)
    (hcnt : tagInt ifd "TileByteCounts" (y * ((w + tw - 1) / tw) + x) = .ok tcnt) :
    read_tile x y z cog false = .ok (.raw (pySlice cog.file_bytes toff (toff + tcnt))) := by
  unfold read_tile read_tile_raw
  simp only [hifd, hw, htw]
  rw [if_neg htw0]
  simp only [hoff, hcnt]
  rfl

/-- The IFD of the C5 witness COG. -/
def c5_ifd : IFD :=
  { tag_count := 4
    next_ifd_offset := 0
    tags :=
      [("ImageWidth", ⟨256, "ImageWidth", ⟨.H, 2, 3⟩, 1, 2, [.int 100]⟩),
       ("TileWidth", ⟨322, "TileWidth", ⟨.H, 2, 3⟩, 1, 2, [.int 100]⟩),
       ("TileOffsets", ⟨324, "TileOffsets", ⟨.L, 4, 4⟩, 1, 4, [.int 2]⟩),
       ("TileByteCounts", ⟨325, "TileByteCounts", ⟨.L, 4, 4⟩, 1, 4, [.int 3]⟩)] }

/-- Concrete COG for the C5 witness: one IFD, 100-pixel-wide image and tiles,
tile 0 at offset 2 with 3 bytes. -/
def c5_cog : Cog :=
  { header := ⟨.little, 42, 8⟩
    ifds := [c5_ifd]
    file_bytes := [9, 8, 7, 6, 5, 4] }

/-- Witness for C5 at tile (0,0) of level 0. -/
theorem read_tile_addressing_witness :
    read_tile 0 0 0 c5_cog false = .ok (.raw [7, 6, 5]) := by
  have h := read_tile_addressing 0 0 0 100 100 2 3 c5_cog c5_ifd
    (by rfl) (by rfl) (by rfl) (by norm_num) (by rfl) (by rfl)
  simpa using h

theorem tagInt_err_ne (ifd : IFD) (name : String) (i : Nat) (er : PyErr)
    (h : tagInt ifd name i = .error er) : er ≠ .notImplementedError := by
  unfold tagInt at h
  repeat' split at h
  all_goals simp only [Except.error.injEq, reduceCtorEq] at h
  all_goals (subst h; simp)

theorem read_tile_raw_err_ne (x y z : Nat) (cog : Cog) (er : PyErr)
    (h : read_tile_raw x y z cog = .error er) : er ≠ .notImplementedError := by
  unfold read_tile_raw at h
  repeat' split at h
  all_goals simp only [Except.error.injEq, reduceCtorEq] at h
  all_goals subst h
  all_goals try simp
  all_goals exact tagInt_err_ne _ _ _ _ (by assumption)

theorem jpegExtraSamplesArg_err_ne (ifd : IFD) (er : PyErr)
    (h : jpegExtraSamplesArg ifd = .error er) : er ≠ .notImplementedError := by
  unfold jpegExtraSamplesArg at h
  repeat' split at h
  all_goals simp only [Except.error.injEq, reduceCtorEq] at h
  all_goals (subst h; simp)

theorem jpegTablesArg_err_ne (ifd : IFD) (e : Endian) (er : PyErr)
    (h : jpegTablesArg ifd e = .error er) : er ≠ .notImplementedError := by
  unfold jpegTablesArg at h
  repeat' split at h
  all_goals simp only [Except.error.injEq, reduceCtorEq] at h
  all_goals (subst h; simp)

theorem jpeg_create_err_ne (ifd : IFD) (e : Endian) (er : PyErr)
    (h : jpeg_create_from_ifd ifd e = .error er) : er ≠ .notImplementedError := by
  unfold jpeg_create_from_ifd at h
  repeat' split at h
  all_goals simp only [Except.error.injEq, reduceCtorEq] at h
  all_goals subst h
  all_goals try simp
  · exact jpegExtraSamplesArg_err_ne _ _ (by assumption)
  · exact jpegTablesArg_err_ne _ _ _ (by assumption)

theorem deflate_create_err_ne (ifd : IFD) (e : Endian) (er : PyErr)
    (h : deflate_create_from_ifd ifd e = .error er) : er ≠ .notImplementedError := by
  unfold deflate_create_from_ifd at h
  repeat' split at h
  all_goals simp only [Except.error.injEq, reduceCtorEq] at h
  all_goals (subst h; simp)

theorem create_from_ifd_err_ne (c : CodecCls) (ifd : IFD) (e : Endian) (er : PyErr)
    (h : create_from_ifd c ifd e = .error er) : er ≠ .notImplementedError := by
  cases c with
  | jpeg => exact jpeg_create_err_ne ifd e er h
  | deflate => exact deflate_create_err_ne ifd e er h

/-- Models `true` exactly on `Except.error .notImplementedError`. -/
def isNotImplErr {α : Type} : Except PyErr α → Bool
  | .error .notImplementedError => true
  | _ => false

/-- C10: decoding with an unknown compression code.  First conjunct: whenever
the tile-read part succeeds and the Compression code of the IFD is absent from the
codec registry, `read_tile(…, decode=True)` raises `AttributeError` from
`codec_registry.get(compression).create_from_ifd(…)` — the `None` returned by the registry
has no such attribute — before the `if not codec` guard runs.  Second
conjunct: the `NotImplementedError` branch of the guard is unreachable for every
input, since a constructed codec instance is always truthy. -/
theorem decode_unknown_compression_attribute_error :
    (∀ (x y z comp : Nat) (cog : Cog) (ifd : IFD) (content : List Nat),
      read_tile_raw x y z cog = .ok (ifd, content) →
      tagInt ifd "Compression" 0 = .ok comp →
      codec_registry_get comp = none →
      read_tile x y z cog true = .error (.attributeError "create_from_ifd"))
    ∧ (∀ (x y z : Nat) (cog : Cog) (decode : Bool),
      isNotImplErr (read_tile x y z cog decode) = false) := by
  constructor
  · intro x y z comp cog ifd content hraw hcomp hreg
    unfold read_tile
    simp only [hraw, hcomp, hreg, ite_true]
  · intro x y z cog decode
    unfold read_tile
    split
    · rename_i er hraw
      have := read_tile_raw_err_ne x y z cog er hraw
      cases er <;> simp_all [isNotImplErr]
    · rename_i ifd content hraw
      split
      · split
        · rename_i er hcomp
          have := tagInt_err_ne ifd "Compression" 0 er hcomp
          cases er <;> simp_all [isNotImplErr]
        · split
          · rfl
          · split
            · rename_i er hcr
              have := create_from_ifd_err_ne _ _ _ _ hcr
              cases er <;> simp_all [isNotImplErr]
            · simp [pyTruthy, isNotImplErr]
      · rfl

/-- The IFD of the C10 witness COG: like `c5_ifd` but with a Compression tag
whose code 5 (LZW) is not in the codec registry. -/
def c10_ifd : IFD :=
  { tag_count := 5
    next_ifd_offset := 0
    tags :=
      [("ImageWidth", ⟨256, "ImageWidth", ⟨.H, 2, 3⟩, 1, 2, [.int 100]⟩),
       ("TileWidth", ⟨322, "TileWidth", ⟨.H, 2, 3⟩, 1, 2, [.int 100]⟩),
       ("TileOffsets", ⟨324, "TileOffsets", ⟨.L, 4, 4⟩, 1, 4, [.int 2]⟩),
       ("TileByteCounts", ⟨325, "TileByteCounts", ⟨.L, 4, 4⟩, 1, 4, [.int 3]⟩),
       ("Compression", ⟨259, "Compression", ⟨.H, 2, 3⟩, 1, 2, [.int 5]⟩)] }

/-- Concrete COG for the C10 witness. -/
def c10_cog : Cog :=
  { header := ⟨.little, 42, 8⟩
    ifds := [c10_ifd]
    file_bytes := [9, 8, 7, 6, 5, 4] }

/-- Witness for the first conjunct of C10 at compression code 5. -/
theorem decode_unknown_compression_witness :
    read_tile 0 0 0 c10_cog true = .error (.attributeError "create_from_ifd") :=
  decode_unknown_compression_attribute_error.1 0 0 0 5 c10_cog
    c10_ifd [7, 6, 5] (by rfl) (by rfl) (by rfl)

/-! ## Writer (writer.py:23-153) -/

/-- The inner tile loop of `write_cog` (writer.py:36-52) on the `dst_codec =
None` path: `zip` stops at the shorter of `TileOffsets.value` and
`TileByteCounts.value`; for each pair the file is read at the offset
(`seek`/`read` require ints) and the sanity check
`assert len(content) == tile_byte_count` (writer.py:52) raises
`AssertionError` when the read came up short. -/
def write_tiles_loop (file : List Nat) : List (PyVal × PyVal) → Except PyErr (List (List Nat))
  | [] => .ok []
  | (o, c) :: rest =>
    match o, c with
    | .int offv, .int cntv =>
      if (pySlice file offv (offv + cntv)).length = cntv then
        match write_tiles_loop file rest with
        | .error er => .error er
        | .ok segs => .ok (pySlice file offv (offv + cntv) :: segs)
      else .error .assertionError
    | _, _ => .error (.typeError "an integer is required")

/-- The outer IFD loop of `write_cog` (writer.py:32-60) on the `dst_codec =
None` path, over `cog.ifds` in reverse: build the source codec from the
`Compression` tag (`codec_registry.get` returns `None` for an unknown code and
the chained `.create_from_ifd` raises `AttributeError`), then read every tile;
the transcode block (writer.py:41-60) is skipped since `dst_codec` is falsy. -/
def write_ifds_loop (cog : Cog) : List IFD → Except PyErr (List (List Nat))
  | [] => .ok []
  | ifd :: rest =>
    match tagInt ifd "Compression" 0 with
    | .error er => .error er
    | .ok comp =>
      match codec_registry_get comp with
      | none => .error (.attributeError "create_from_ifd")
      | some ccls =>
        match create_from_ifd ccls ifd cog.header.endian with
        | .error er => .error er
        | .ok _src =>
          match lookupAssoc ifd.tags "TileOffsets" with
          | none => .error (.keyError "TileOffsets")
          | some ot =>
            match lookupAssoc ifd.tags "TileByteCounts" with
            | none => .error (.keyError "TileByteCounts")
            | some ct =>
              match write_tiles_loop cog.file_bytes (ot.value.zip ct.value) with
              | .error er => .error er
              | .ok segs =>
                match write_ifds_loop cog rest with
                | .error er => .error er
                | .ok more => .ok (segs ++ more)

/-- Models `write_cog(cog)` with the default `dst_codec=None` (writer.py:23-153).
After the tile-reading loop, line 63 evaluates `cog.header_size` — but `Cog`
(types.py:118-131) defines no `header_size` attribute, so every call raises
`AttributeError` there before any byte of output is produced; the remainder of
the function (header and IFD serialization, writer.py:74-153) is
unreachable. -/
def write_cog (cog : Cog) : Except PyErr (List Nat) :=
  match write_ifds_loop cog cog.ifds.reverse with
  | .error er => .error er
  | .ok _image_segments => .error (.attributeError "header_size")

/-- Models `true` exactly on `Except.ok`. -/
def exceptIsOk {α : Type} : Except PyErr α → Bool
  | .ok _ => true
  | .error _ => false

/-- C1: the write/read round-trip never gets off the ground — `write_cog`
raises on every input (at latest the `AttributeError` on `cog.header_size`,
writer.py:63), so `open(write(cog))` cannot return a COG, contradicting the
round-trip asserted by the repository test `testing.py`. -/
theorem write_cog_always_raises (cog : Cog) :
    exceptIsOk (write_cog cog) = false := by
  unfold write_cog
  split <;> rfl

/-- Models `ifd.tags["TileByteCounts"].value = tuple(tile_byte_counts)`
(writer.py:56): attribute assignment on the looked-up tag, `KeyError` when the
tag is absent; the dict key and position are unchanged. -/
def assocSetValue : List (String × Tag) → String → List PyVal →
    Except PyErr (List (String × Tag))
  | [], k, _ => .error (.keyError k)
  | (k', t) :: rest, k, v =>
    if k' = k then .ok ((k', { t with value := v }) :: rest)
    else
      match assocSetValue rest k v with
      | .error er => .error er
      | .ok rest' => .ok ((k', t) :: rest')

/-- Models `d.update(new)` on a Python dict: existing keys are overwritten in place,
new keys are appended in iteration order. -/
def dictUpdate (d new : List (String × Tag)) : List (String × Tag) :=
  new.foldl (fun acc kv => assocSet acc kv.1 kv.2) d

/-- Models `del d[k]` on a Python dict: `KeyError` when absent. -/
def assocDel : List (String × Tag) → String → Except PyErr (List (String × Tag))
  | [], k => .error (.keyError k)
  | (k', t) :: rest, k =>
    if k' = k then .ok rest
    else
      match assocDel rest k with
      | .error er => .error er
      | .ok rest' => .ok ((k', t) :: rest')

/-- Models `(0.0, 255.0, 128.0, 255.0, 128.0, 255.0)` (codecs.py:140) as IEEE-754
double bit patterns: 0.0 ↦ 0, 255.0 ↦ 0x406FE00000000000,
128.0 ↦ 0x4060000000000000. -/
def referenceBlackWhiteValue : List PyVal :=
  [.f64 0, .f64 0x406FE00000000000, .f64 0x4060000000000000,
   .f64 0x406FE00000000000, .f64 0x4060000000000000, .f64 0x406FE00000000000]

/-- Models `Jpeg.create_tags` (codecs.py:108-142), built in dict insertion order:
always `Compression=7`; `PhotometricInterpretation` when `colorspace_data` is
set; `ChromaSubSampling` when `colorspace_data ∈ {2, 6}` and `subsampling` is
truthy (a non-empty tuple); `ReferenceBlackWhite` when `colorspace_data` is 6.
The `ChromaSubSampling`, `ReferenceBlackWhite` and `Predictor` tag classes are
imported by codecs.py from pycog.tags but are missing from src/; modelled from
the spec with the standard TIFF codes for those names (530, 532, 317). -/
def jpeg_create_tags (c : JpegCodec) : List (String × Tag) :=
  let t0 := [("Compression", (⟨259, "Compression", ⟨.H, 2, 3⟩, 1, 2, [.int 7]⟩ : Tag))]
  let t1 :=
    match c.colorspace_data with
    | some cd =>
      t0 ++ [("PhotometricInterpretation",
        (⟨262, "PhotometricInterpretation", ⟨.H, 2, 3⟩, 1, 2, [.int cd]⟩ : Tag))]
    | none => t0
  let t2 :=
    match c.colorspace_data, c.subsampling with
    | some cd, some ss =>
      if (cd = 2 ∨ cd = 6) ∧ ss ≠ [] then
        t1 ++ [("ChromaSubSampling",
          (⟨530, "ChromaSubSampling", ⟨.H, 2, 3⟩, 2, 4, ss⟩ : Tag))]
      else t1
    | _, _ => t1
  match c.colorspace_data with
  | some 6 =>
    t2 ++ [("ReferenceBlackWhite",
      (⟨532, "ReferenceBlackWhite", ⟨.f, 4, 5⟩, 6, 24, referenceBlackWhiteValue⟩ : Tag))]
  | _ => t2

/-- The transcode tag rewrite of `write_cog` (writer.py:54-60) when a
destination codec is given: set the new `TileByteCounts` value, merge
`dst_codec.create_tags()` into the dict, delete `JPEGTables` — and *no*
re-sort: the `ifd.tags = dict(sorted(...))` line at writer.py:60 is commented
out. -/
def writer_transcode_tag_update (tags : List (String × Tag))
    (newCounts : List PyVal) (dstTags : List (String × Tag)) :
    Except PyErr (List (String × Tag)) :=
  match assocSetValue tags "TileByteCounts" newCounts with
  | .error er => .error er
  | .ok tags1 => assocDel (dictUpdate tags1 dstTags) "JPEGTables"

/-- Is a list of tag ids in ascending order (the order required by TIFF and by
the writer contract of the spec)? -/
def isAscending : List Nat → Bool
  | [] => true
  | [_] => true
  | a :: b :: rest => a ≤ b && isAscending (b :: rest)

/-- An IFD tag dict in ascending id order, as the reader produces for a
well-formed file: Compression(259), TileByteCounts(325), JPEGTables(347),
GeoAsciiParams(34737). -/
def c9_tags : List (String × Tag) :=
  [("Compression", ⟨259, "Compression", ⟨.H, 2, 3⟩, 1, 2, [.int 7]⟩),
   ("TileByteCounts", ⟨325, "TileByteCounts", ⟨.L, 4, 4⟩, 1, 4, [.int 10]⟩),
   ("JPEGTables", ⟨347, "JPEGTables", ⟨.B, 1, 7⟩, 2, 2, [.int 1, .int 2]⟩),
   ("GeoAsciiParams", ⟨34737, "GeoAsciiParams", ⟨.c, 1, 2⟩, 2, 2,
      [.byteChar 65, .byteChar 124]⟩)]

/-- A destination JPEG codec as a caller would construct it for a YCbCr
output. -/
def c9_dst_codec : JpegCodec :=
  { bitspersample := .int 8
    tables := none
    subsampling := none
    colorspace_data := some 6
    colorspace_jpeg := none }

/-- C9: writer tag ordering.  Starting from an IFD whose tags are in ascending
id order, the transcode rewrite of writer.py:54-60 leaves the dict in the
order 259, 325, 34737, 262, 532 — the merged `PhotometricInterpretation` (262)
and `ReferenceBlackWhite` (532) are appended *after* `GeoAsciiParams` (34737)
and nothing re-sorts them (the sort at writer.py:60 is commented out), so the
entries later serialized in dict order (writer.py:93-123) are not ascending by
tag id.  (Independently, `write_cog` never emits any stream at all; see
`write_cog_always_raises`.) -/
theorem transcode_breaks_tag_order :
    (writer_transcode_tag_update c9_tags [.int 5] (jpeg_create_tags c9_dst_codec)).map
        (fun tags => tags.map (fun kv => kv.2.id))
      = .ok [259, 325, 34737, 262, 532]
    ∧ isAscending [259, 325, 34737, 262, 532] = false := by
  exact ⟨by rfl, by rfl⟩

end PyCog
